import Mathlib

/-!
Shallow embedding of the pathfinding core of the repository:

* `src/algorithms/AStar.ts`   (`AStarAlgorithm`)
* `src/algorithms/Dijkstra.ts` (`DijkstraAlgorithm`)
* `src/algorithms/BFS.ts`     (`BFSAlgorithm`)
* `src/services/PathfindingService.ts` (`PathfindingService`)
* the path routes (`GET /:pathId` wrapper around `getPath`)

Geographic coordinates are modelled as rationals (every JavaScript number
is a rational, and all coordinate arithmetic in the source is field
arithmetic), while distances, which go through `sin`, `cos`, `sqrt` and
`atan2`, live in `ℝ`.  `Math.random()` inside the Dijkstra strategy is
modelled as an explicit stream `ℕ → ℚ` of the values the generator
returns, consumed two per loop iteration.  Firestore is modelled as an
association list from document ids to documents, threaded through the
service operations as explicit state; the ids, timestamps and measured
wall-clock durations produced by the environment are passed in as an
`Env` record.
-/

/-- A geographic point, `{lat, lng}` from `PathfindingService.ts`. -/
structure Point where
  lat : ℚ
  lng : ℚ
deriving DecidableEq, Repr, Inhabited

/-- `Math.atan2 y x`: the standard two-argument arctangent, used by the
haversine computation in each algorithm class. -/
noncomputable def Math.atan2 (y x : ℝ) : ℝ :=
  if 0 < x then Real.arctan (y / x)
  else if x < 0 ∧ 0 ≤ y then Real.arctan (y / x) + Real.pi
  else if x < 0 ∧ y < 0 then Real.arctan (y / x) - Real.pi
  else if x = 0 ∧ 0 < y then Real.pi / 2
  else if x = 0 ∧ y < 0 then -(Real.pi / 2)
  else 0

/-- The `options` record passed to the strategies and the service.  The
source reads only `options.steps`, `options.heuristic` and
`options.isPublic`; `none` models an absent key. -/
structure FindOptions where
  steps : Option ℕ := none
  heuristic : Option String := none
  isPublic : Bool := false
deriving DecidableEq, Repr, Inhabited

/-- JavaScript `v || d` on an optional number: `0` and `undefined` are
falsy, so both fall back to the default. -/
def orDefaultNat (v : Option ℕ) (d : ℕ) : ℕ :=
  match v with
  | none => d
  | some 0 => d
  | some n => n

/-- JavaScript `v || d` on an optional string: `""` and `undefined` are
falsy. -/
def orDefaultStr (v : Option String) (d : String) : String :=
  match v with
  | none => d
  | some s => if s = "" then d else s

/-- A value stored in a strategy's `metadata` record. -/
inductive MetaValue where
  | s (v : String)
  | n (v : ℕ)
  | o (v : FindOptions)
deriving DecidableEq, Repr

/-- The `{path, distance, metadata}` record returned by each strategy's
`findPath`.  Metadata is an association list keyed by the exact strings
used in the source. -/
structure AlgoResult where
  path : List Point
  distance : ℝ
  metadata : List (String × MetaValue)

namespace AStarAlgorithm

/-- `toRadians` from `AStar.ts`: `degrees * (Math.PI / 180)`. -/
noncomputable def toRadians (degrees : ℚ) : ℝ :=
  (degrees : ℝ) * (Real.pi / 180)

/-- `haversineDistance` from `AStar.ts`, on a sphere of radius 6371 km. -/
noncomputable def haversineDistance (point1 point2 : Point) : ℝ :=
  let R : ℝ := 6371
  let dLat := toRadians (point2.lat - point1.lat)
  let dLng := toRadians (point2.lng - point1.lng)
  let a := Real.sin (dLat / 2) * Real.sin (dLat / 2) +
    Real.cos (toRadians point1.lat) * Real.cos (toRadians point2.lat) *
    (Real.sin (dLng / 2) * Real.sin (dLng / 2))
  let c := 2 * Math.atan2 (Real.sqrt a) (Real.sqrt (1 - a))
  R * c

/-- `calculateAStarPath` from `AStar.ts`: `[start]`, then for
`i = 1 .. steps-1` the point interpolated at `progress = i/steps`, then
`end`.  `steps` is `options.steps || 10`. -/
def calculateAStarPath (start «end» : Point) (options : FindOptions) : List Point :=
  let steps := orDefaultNat options.steps 10
  [start] ++
    (List.range' 1 (steps - 1)).map (fun i =>
      { lat := start.lat + («end».lat - start.lat) * ((i : ℚ) / (steps : ℚ)),
        lng := start.lng + («end».lng - start.lng) * ((i : ℚ) / (steps : ℚ)) }) ++
    [«end»]

/-- `calculateDistance` from `AStar.ts`: the loop
`for i in 1 .. path.length-1: total += haversineDistance(path[i-1], path[i])`. -/
noncomputable def calculateDistance : List Point → ℝ
  | p :: q :: rest => haversineDistance p q + calculateDistance (q :: rest)
  | _ => 0

/-- `AStarAlgorithm.findPath`.  `executionTime` models the elapsed
wall-clock milliseconds `Date.now() - startTime` observed by the call. -/
noncomputable def findPath (start «end» : Point) (options : FindOptions)
    (executionTime : ℕ) : AlgoResult :=
  let path := calculateAStarPath start «end» options
  let distance := calculateDistance path
  { path := path
    distance := distance
    metadata :=
      [("algorithm", MetaValue.s "A*"),
       ("nodesExplored", MetaValue.n path.length),
       ("executionTime", MetaValue.n executionTime),
       ("heuristic", MetaValue.s (orDefaultStr options.heuristic "euclidean")),
       ("options", MetaValue.o options)] }

end AStarAlgorithm

namespace DijkstraAlgorithm

/-- `toRadians` from `Dijkstra.ts` (identical text to the A* copy). -/
noncomputable def toRadians (degrees : ℚ) : ℝ :=
  (degrees : ℝ) * (Real.pi / 180)

/-- `haversineDistance` from `Dijkstra.ts` (identical text to the A* copy). -/
noncomputable def haversineDistance (point1 point2 : Point) : ℝ :=
  let R : ℝ := 6371
  let dLat := toRadians (point2.lat - point1.lat)
  let dLng := toRadians (point2.lng - point1.lng)
  let a := Real.sin (dLat / 2) * Real.sin (dLat / 2) +
    Real.cos (toRadians point1.lat) * Real.cos (toRadians point2.lat) *
    (Real.sin (dLng / 2) * Real.sin (dLng / 2))
  let c := 2 * Math.atan2 (Real.sqrt a) (Real.sqrt (1 - a))
  R * c

/-- `calculateDijkstraPath` from `Dijkstra.ts`: like the A* path but with
default step count 15 and a random jitter of
`(Math.random() - 0.5) * 0.0001` added to each intermediate coordinate.
`rnd` is the stream of values `Math.random()` returns; iteration `i`
consumes `rnd (2*(i-1))` for the latitude and `rnd (2*(i-1)+1)` for the
longitude. -/
def calculateDijkstraPath (start «end» : Point) (options : FindOptions)
    (rnd : ℕ → ℚ) : List Point :=
  let steps := orDefaultNat options.steps 15
  let variation : ℚ := 1 / 10000
  [start] ++
    (List.range' 1 (steps - 1)).map (fun (i : ℕ) =>
      let progress := (i : ℚ) / (steps : ℚ)
      let lat := start.lat + («end».lat - start.lat) * progress
      let lng := start.lng + («end».lng - start.lng) * progress
      let latVariation := (rnd (2 * (i - 1)) - 1/2) * variation
      let lngVariation := (rnd (2 * (i - 1) + 1) - 1/2) * variation
      { lat := lat + latVariation, lng := lng + lngVariation }) ++
    [«end»]

/-- `calculateDistance` from `Dijkstra.ts`; the `if (prev && curr)` guard
in the source is a truthiness check on two always-defined objects, hence
always taken. -/
noncomputable def calculateDistance : List Point → ℝ
  | p :: q :: rest => haversineDistance p q + calculateDistance (q :: rest)
  | _ => 0

/-- `DijkstraAlgorithm.findPath`. -/
noncomputable def findPath (start «end» : Point) (options : FindOptions)
    (rnd : ℕ → ℚ) (executionTime : ℕ) : AlgoResult :=
  let path := calculateDijkstraPath start «end» options rnd
  let distance := calculateDistance path
  { path := path
    distance := distance
    metadata :=
      [("algorithm", MetaValue.s "Dijkstra"),
       ("nodesExplored", MetaValue.n (path.length * 2)),
       ("executionTime", MetaValue.n executionTime),
       ("guaranteed", MetaValue.s "optimal"),
       ("options", MetaValue.o options)] }

end DijkstraAlgorithm

namespace BFSAlgorithm

/-- `toRadians` from `BFS.ts` (identical text to the A* copy). -/
noncomputable def toRadians (degrees : ℚ) : ℝ :=
  (degrees : ℝ) * (Real.pi / 180)

/-- `haversineDistance` from `BFS.ts` (identical text to the A* copy). -/
noncomputable def haversineDistance (point1 point2 : Point) : ℝ :=
  let R : ℝ := 6371
  let dLat := toRadians (point2.lat - point1.lat)
  let dLng := toRadians (point2.lng - point1.lng)
  let a := Real.sin (dLat / 2) * Real.sin (dLat / 2) +
    Real.cos (toRadians point1.lat) * Real.cos (toRadians point2.lat) *
    (Real.sin (dLng / 2) * Real.sin (dLng / 2))
  let c := 2 * Math.atan2 (Real.sqrt a) (Real.sqrt (1 - a))
  R * c

/-- `calculateBFSPath` from `BFS.ts`: like the A* path but with default
step count 8. -/
def calculateBFSPath (start «end» : Point) (options : FindOptions) : List Point :=
  let steps := orDefaultNat options.steps 8
  [start] ++
    (List.range' 1 (steps - 1)).map (fun i =>
      { lat := start.lat + («end».lat - start.lat) * ((i : ℚ) / (steps : ℚ)),
        lng := start.lng + («end».lng - start.lng) * ((i : ℚ) / (steps : ℚ)) }) ++
    [«end»]

/-- `calculateDistance` from `BFS.ts` (same remark on the truthiness
guard as in the Dijkstra copy). -/
noncomputable def calculateDistance : List Point → ℝ
  | p :: q :: rest => haversineDistance p q + calculateDistance (q :: rest)
  | _ => 0

/-- `BFSAlgorithm.findPath`. -/
noncomputable def findPath (start «end» : Point) (options : FindOptions)
    (executionTime : ℕ) : AlgoResult :=
  let path := calculateBFSPath start «end» options
  let distance := calculateDistance path
  { path := path
    distance := distance
    metadata :=
      [("algorithm", MetaValue.s "BFS"),
       ("nodesExplored", MetaValue.n (path.length * 3)),
       ("executionTime", MetaValue.n executionTime),
       ("pathType", MetaValue.s "shortest_hops"),
       ("options", MetaValue.o options)] }

end BFSAlgorithm

/-- `createError(message, statusCode)` from the error-handler middleware:
an error object carrying a message and an HTTP status code. -/
structure AppError where
  message : String
  statusCode : ℕ
deriving DecidableEq, Repr

/-- `createError` itself. -/
def createError (message : String) (statusCode : ℕ) : AppError :=
  { message := message, statusCode := statusCode }

/-- A `PathRequest` as received by `PathfindingService.findPath`.  The
`algorithm` field is a string: the TypeScript union type notwithstanding,
`findPath` switches on it and has a `default` branch for unrecognized
values. -/
structure PathRequest where
  start : Point
  «end» : Point
  algorithm : String
  options : FindOptions := {}
  userId : String
deriving DecidableEq, Repr

/-- A `PathResult` as returned by the service. -/
structure PathResult where
  id : String
  path : List Point
  distance : ℝ
  duration : ℕ
  algorithm : String
  metadata : List (String × MetaValue)

noncomputable instance : Inhabited PathResult :=
  ⟨{ id := "", path := [], distance := 0, duration := 0, algorithm := "", metadata := [] }⟩

/-- The document written to the `paths` Firestore collection by
`findPath`. -/
structure PathDoc where
  userId : String
  start : Point
  «end» : Point
  algorithm : String
  path : List Point
  distance : ℝ
  duration : ℕ
  options : FindOptions
  metadata : List (String × MetaValue)
  createdAt : ℕ
  isPublic : Bool

/-- The `paths` collection: document ids paired with documents, in
creation order. -/
abbrev Store : Type := List (String × PathDoc)

/-- Environment inputs of one `findPath` call: the id Firestore assigns
to the new document, the server timestamp, the measured wall-clock
duration, the strategy-level execution time, and the `Math.random`
stream consumed by the Dijkstra strategy. -/
structure Env where
  genId : String
  createdAt : ℕ
  duration : ℕ
  executionTime : ℕ
  rnd : ℕ → ℚ

namespace PathfindingService

/-- `validateCoordinates` from `PathfindingService.ts`.  The
`typeof !== 'number'` guard cannot fire in the model, where a coordinate
is always a number. -/
def validateCoordinates (point : Point) : Except AppError Unit :=
  if point.lat < -90 ∨ point.lat > 90 then
    Except.error (createError "Invalid latitude" 400)
  else if point.lng < -180 ∨ point.lng > 180 then
    Except.error (createError "Invalid longitude" 400)
  else
    Except.ok ()

/-- `PathfindingService.findPath`: validate both coordinates, dispatch on
the algorithm tag, persist the resulting document, and return the
`PathResult`.  On any error the store is returned unchanged; the
`logAnalytics` call writes only to the separate analytics collection and
swallows its own failures, so it is invisible in this state.  Errors are
returned in the `Except` channel; the store is the second component. -/
noncomputable def findPath (store : Store) (request : PathRequest) (env : Env) :
    Except AppError PathResult × Store :=
  match validateCoordinates request.start with
  | Except.error e => (Except.error e, store)
  | Except.ok _ =>
  match validateCoordinates request.«end» with
  | Except.error e => (Except.error e, store)
  | Except.ok _ =>
  let selected : Option AlgoResult :=
    if request.algorithm = "astar" then
      some (AStarAlgorithm.findPath request.start request.«end» request.options env.executionTime)
    else if request.algorithm = "dijkstra" then
      some (DijkstraAlgorithm.findPath request.start request.«end» request.options env.rnd env.executionTime)
    else if request.algorithm = "bfs" then
      some (BFSAlgorithm.findPath request.start request.«end» request.options env.executionTime)
    else
      none
  match selected with
  | none =>
      (Except.error (createError ("Unsupported algorithm: " ++ request.algorithm) 400), store)
  | some pathResult =>
    let pathDoc : PathDoc :=
      { userId := request.userId
        start := request.start
        «end» := request.«end»
        algorithm := request.algorithm
        path := pathResult.path
        distance := pathResult.distance
        duration := env.duration
        options := request.options
        metadata := pathResult.metadata
        createdAt := env.createdAt
        isPublic := request.options.isPublic }
    (Except.ok
      { id := env.genId
        path := pathResult.path
        distance := pathResult.distance
        duration := env.duration
        algorithm := request.algorithm
        metadata := pathResult.metadata },
     store ++ [(env.genId, pathDoc)])

/-- A batch item: a `PathRequest` without the `userId` field. -/
structure BatchRequest where
  start : Point
  «end» : Point
  algorithm : String
  options : FindOptions := {}
deriving DecidableEq, Repr

/-- Reattach the batch owner: `{ ...request, userId }`. -/
def BatchRequest.toPathRequest (r : BatchRequest) (userId : String) : PathRequest :=
  { start := r.start, «end» := r.«end», algorithm := r.algorithm,
    options := r.options, userId := userId }

/-- `PathfindingService.batchFindPath`: run each request in order through
`findPath`; a failing request contributes the degenerate result
`{id:"", path:[], distance:0, duration:0, algorithm, metadata:{error}}`
at its index and processing continues.  Each item carries the
environment values of its own call. -/
noncomputable def batchFindPath (store : Store) (userId : String) :
    List (BatchRequest × Env) → List PathResult × Store
  | [] => ([], store)
  | (request, env) :: rest =>
    match findPath store (request.toPathRequest userId) env with
    | (Except.ok result, store') =>
        let tail := batchFindPath store' userId rest
        (result :: tail.1, tail.2)
    | (Except.error e, store') =>
        let tail := batchFindPath store' userId rest
        ({ id := ""
           path := []
           distance := 0
           duration := 0
           algorithm := request.algorithm
           metadata := [("error", MetaValue.s e.message)] } :: tail.1,
         tail.2)

/-- The `{paths, total}` record returned by `getPathHistory`. -/
structure PathHistory where
  paths : List PathResult
  total : ℕ

/-- The owner's documents, `where('userId','==',userId)`. -/
def ownedDocs (store : Store) (userId : String) : Store :=
  store.filter (fun kv => kv.2.userId == userId)

/-- `PathfindingService.getPathHistory`: slice the owner's documents,
ordered by `createdAt` descending, with `offset = (page-1)*limit`, and
report the full count as `total`.  The source performs no validation of
`page` or `limit`; the Firestore query collaborator is modelled as
filter, sort, drop and take (a negative offset or limit drops or takes
nothing). -/
def getPathHistory (store : Store) (userId : String) (page : ℤ := 1)
    (lim : ℤ := 20) : PathHistory :=
  let offset := (page - 1) * lim
  let owned := ownedDocs store userId
  let sorted := owned.mergeSort (fun a b => decide (b.2.createdAt ≤ a.2.createdAt))
  let slice := (sorted.drop offset.toNat).take lim.toNat
  { paths := slice.map (fun kv =>
      { id := kv.1, path := kv.2.path, distance := kv.2.distance,
        duration := kv.2.duration, algorithm := kv.2.algorithm,
        metadata := kv.2.metadata })
    total := owned.length }

/-- `PathfindingService.getPath`: `null` when the document does not
exist; `403` when the caller neither owns the document nor may see it
publicly; otherwise the record. -/
def getPath (store : Store) (pathId : String) (userId : String) :
    Except AppError (Option PathResult) :=
  match store.lookup pathId with
  | none => Except.ok none
  | some data =>
    if data.userId ≠ userId ∧ data.isPublic = false then
      Except.error (createError "Access denied to this path" 403)
    else
      Except.ok (some
        { id := pathId, path := data.path, distance := data.distance,
          duration := data.duration, algorithm := data.algorithm,
          metadata := data.metadata })

end PathfindingService

/-- The `GET /:pathId` route handler from the path routes: reject an
empty id with 400, turn the service's `null` into a 404
`"Path not found"`, and forward everything else. -/
def getPathRoute (store : Store) (pathId : String) (userId : String) :
    Except AppError PathResult :=
  if pathId = "" then
    Except.error (createError "Path ID is required" 400)
  else
    match PathfindingService.getPath store pathId userId with
    | Except.error e => Except.error e
    | Except.ok none => Except.error (createError "Path not found" 404)
    | Except.ok (some p) => Except.ok p

/-- Position of the store just before batch item `i` runs: the store
after processing the first `i` items. -/
noncomputable def storeBefore (store : Store) (userId : String)
    (items : List (PathfindingService.BatchRequest × Env)) (i : ℕ) : Store :=
  (PathfindingService.batchFindPath store userId (items.take i)).2

/-- Spec-side reading of the distance contract: the sum of `f` over each
consecutive pair of points of the path. -/
noncomputable def consecPairSum (f : Point → Point → ℝ) (path : List Point) : ℝ :=
  ((path.zip path.tail).map (fun pr => f pr.1 pr.2)).sum

/-- New York, the start point of the spec's concrete scenario. -/
def demoStart : Point := { lat := 40.7128, lng := -74.0060 }

/-- Times Square, the end point of the spec's concrete scenario. -/
def demoEnd : Point := { lat := 40.7589, lng := -73.9851 }

/-- The origin point, used for degenerate-input experiments. -/
def originPt : Point := { lat := 0, lng := 0 }

/-- A `Math.random` stream that always returns `0`. -/
def zeroRnd : ℕ → ℚ := fun _ => 0

/-- A `Math.random` stream that always returns `0.5`, making the
Dijkstra jitter vanish. -/
def halfRnd : ℕ → ℚ := fun _ => 1/2

/-- A concrete environment for witness runs. -/
def demoEnv : Env :=
  { genId := "doc1", createdAt := 10, duration := 3, executionTime := 2, rnd := halfRnd }

/-- The spec's concrete scenario as a `PathRequest`. -/
def demoReq : PathRequest :=
  { start := demoStart, «end» := demoEnd, algorithm := "astar", options := {}, userId := "alice" }

/-- A request with an out-of-range start latitude. -/
def badReq : PathRequest :=
  { start := { lat := 91, lng := 0 }, «end» := originPt, algorithm := "astar",
    options := {}, userId := "alice" }

/-- The bad request as a batch item. -/
def badBatchReq : PathfindingService.BatchRequest :=
  { start := { lat := 91, lng := 0 }, «end» := originPt, algorithm := "astar", options := {} }

/-- The run of the concrete scenario on an empty store. -/
noncomputable def demoRun : Except AppError PathResult × Store :=
  PathfindingService.findPath [] demoReq demoEnv

/-- The `PathResult` of the concrete scenario. -/
noncomputable def demoRes : PathResult :=
  match demoRun.1 with
  | Except.ok r => r
  | Except.error _ => default

/-- The store after the concrete scenario. -/
noncomputable def demoStoreAfter : Store := demoRun.2

/-- The jittered midpoint produced by the Dijkstra strategy when the
start and end are the origin and every `Math.random` draw is `0`. -/
def qJ : Point := { lat := -1/20000, lng := -1/20000 }

/-- A persisted private document owned by `"alice"`. -/
def demoDoc : PathDoc :=
  { userId := "alice", start := demoStart, «end» := demoEnd, algorithm := "astar",
    path := [demoStart, demoEnd], distance := 0, duration := 3, options := {},
    metadata := [], createdAt := 5, isPublic := false }

/-- A one-document store owned by `"alice"`. -/
def demoStore : Store := [("p1", demoDoc)]

theorem Math.atan2_nonneg {y x : ℝ} (hy : 0 ≤ y) (hx : 0 ≤ x) :
    0 ≤ Math.atan2 y x := by
  unfold Math.atan2
  split_ifs with h1 h2 h3 h4 h5
  · have h := Real.arctan_strictMono.monotone (div_nonneg hy h1.le)
    rwa [Real.arctan_zero] at h
  · exact absurd hx (not_le.mpr h2.1)
  · exact absurd hx (not_le.mpr h3.1)
  · exact le_of_lt (half_pos Real.pi_pos)
  · exact absurd hy (not_le.mpr h5.2)
  · exact le_refl 0

theorem Math.atan2_pos {y x : ℝ} (hy : 0 < y) (hx : 0 ≤ x) :
    0 < Math.atan2 y x := by
  unfold Math.atan2
  split_ifs with h1 h2 h3 h4 h5
  · have h := Real.arctan_strictMono (div_pos hy h1)
    rwa [Real.arctan_zero] at h
  · exact absurd hx (not_le.mpr h2.1)
  · exact absurd hx (not_le.mpr h3.1)
  · exact half_pos Real.pi_pos
  · exact absurd hy (not_lt.mpr (le_of_lt h5.2))
  · refine absurd ⟨le_antisymm (not_lt.mp h1) hx ▸ rfl, hy⟩ h4

theorem Math.atan2_zero_one : Math.atan2 0 1 = 0 := by
  unfold Math.atan2
  rw [if_pos (by norm_num : (0:ℝ) < 1)]
  simp [Real.arctan_zero]

/-- The value `6371 * (2 * atan2 (sqrt a) (sqrt (1 - a)))` computed by
every copy of `haversineDistance` is non-negative whatever `a` is. -/
theorem havShape_nonneg (a : ℝ) :
    0 ≤ (6371 : ℝ) * (2 * Math.atan2 (Real.sqrt a) (Real.sqrt (1 - a))) := by
  have h := Math.atan2_nonneg (Real.sqrt_nonneg a) (Real.sqrt_nonneg (1 - a))
  nlinarith

theorem AStarAlgorithm.haversineDistance_nonneg (p q : Point) :
    0 ≤ AStarAlgorithm.haversineDistance p q :=
  havShape_nonneg _

theorem AStarAlgorithm.haversine_self (p : Point) :
    AStarAlgorithm.haversineDistance p p = 0 := by
  have h0 : AStarAlgorithm.toRadians (p.lat - p.lat) = 0 := by
    unfold AStarAlgorithm.toRadians
    rw [sub_self]
    push_cast
    ring
  have h0' : AStarAlgorithm.toRadians (p.lng - p.lng) = 0 := by
    unfold AStarAlgorithm.toRadians
    rw [sub_self]
    push_cast
    ring
  simp only [AStarAlgorithm.haversineDistance, h0, h0']
  rw [zero_div, Real.sin_zero]
  norm_num [Real.sqrt_one, Math.atan2_zero_one]

theorem AStarAlgorithm.haversine_comm (p q : Point) :
    AStarAlgorithm.haversineDistance p q = AStarAlgorithm.haversineDistance q p := by
  have hneg : ∀ (x y : ℚ), AStarAlgorithm.toRadians (x - y) = -AStarAlgorithm.toRadians (y - x) := by
    intro x y
    unfold AStarAlgorithm.toRadians
    push_cast
    ring
  have hsin : ∀ (u : ℝ), Real.sin (-u / 2) * Real.sin (-u / 2) = Real.sin (u / 2) * Real.sin (u / 2) := by
    intro u
    rw [neg_div, Real.sin_neg]
    ring
  simp only [AStarAlgorithm.haversineDistance]
  rw [hneg q.lat p.lat, hneg q.lng p.lng, hsin, hsin,
    mul_comm (Real.cos (AStarAlgorithm.toRadians p.lat)) (Real.cos (AStarAlgorithm.toRadians q.lat))]

/-- The haversine shape is positive as soon as the inner `a` value is. -/
theorem havShape_pos (a : ℝ) (ha : 0 < a) :
    0 < (6371 : ℝ) * (2 * Math.atan2 (Real.sqrt a) (Real.sqrt (1 - a))) := by
  have h := Math.atan2_pos (Real.sqrt_pos.mpr ha) (Real.sqrt_nonneg (1 - a))
  nlinarith

/-- For latitudes within `[-90, 90]`, two points with different latitudes
are a positive haversine distance apart. -/
theorem AStarAlgorithm.haversine_pos (p q : Point)
    (hp1 : -90 ≤ p.lat) (hp2 : p.lat ≤ 90) (hq1 : -90 ≤ q.lat) (hq2 : q.lat ≤ 90)
    (hne : p.lat ≠ q.lat) :
    0 < AStarAlgorithm.haversineDistance p q := by
  have hπ := Real.pi_pos
  have hp1' : (-90 : ℝ) ≤ (p.lat : ℝ) := by exact_mod_cast hp1
  have hp2' : (p.lat : ℝ) ≤ 90 := by exact_mod_cast hp2
  have hq1' : (-90 : ℝ) ≤ (q.lat : ℝ) := by exact_mod_cast hq1
  have hq2' : (q.lat : ℝ) ≤ 90 := by exact_mod_cast hq2
  have htR : ∀ (x : ℚ), AStarAlgorithm.toRadians x = (x : ℝ) * (Real.pi / 180) := fun _ => rfl
  -- the latitude half-angle
  have hd : ((q.lat - p.lat : ℚ) : ℝ) ≠ 0 := by
    have h : (q.lat - p.lat : ℚ) ≠ 0 := sub_ne_zero.mpr (Ne.symm hne)
    exact_mod_cast h
  have hdlo : (-180 : ℝ) ≤ ((q.lat - p.lat : ℚ) : ℝ) := by push_cast; linarith
  have hdhi : ((q.lat - p.lat : ℚ) : ℝ) ≤ 180 := by push_cast; linarith
  have hsinsq : 0 < Real.sin (AStarAlgorithm.toRadians (q.lat - p.lat) / 2) *
      Real.sin (AStarAlgorithm.toRadians (q.lat - p.lat) / 2) := by
    rw [htR]
    rcases lt_or_gt_of_ne hd with hneg | hpos
    · have hu1 : ((q.lat - p.lat : ℚ) : ℝ) * (Real.pi / 180) / 2 < 0 := by nlinarith
      have hu2 : -Real.pi < ((q.lat - p.lat : ℚ) : ℝ) * (Real.pi / 180) / 2 := by nlinarith
      have hs := Real.sin_neg_of_neg_of_neg_pi_lt hu1 hu2
      exact mul_pos_of_neg_of_neg hs hs
    · have hu1 : 0 < ((q.lat - p.lat : ℚ) : ℝ) * (Real.pi / 180) / 2 := by nlinarith
      have hu2 : ((q.lat - p.lat : ℚ) : ℝ) * (Real.pi / 180) / 2 < Real.pi := by nlinarith
      have hs := Real.sin_pos_of_pos_of_lt_pi hu1 hu2
      exact mul_pos hs hs
  have hcosp : 0 ≤ Real.cos (AStarAlgorithm.toRadians p.lat) := by
    rw [htR]
    refine Real.cos_nonneg_of_mem_Icc ⟨by nlinarith, by nlinarith⟩
  have hcosq : 0 ≤ Real.cos (AStarAlgorithm.toRadians q.lat) := by
    rw [htR]
    refine Real.cos_nonneg_of_mem_Icc ⟨by nlinarith, by nlinarith⟩
  have hA : 0 < Real.sin (AStarAlgorithm.toRadians (q.lat - p.lat) / 2) *
      Real.sin (AStarAlgorithm.toRadians (q.lat - p.lat) / 2) +
      Real.cos (AStarAlgorithm.toRadians p.lat) * Real.cos (AStarAlgorithm.toRadians q.lat) *
      (Real.sin (AStarAlgorithm.toRadians (q.lng - p.lng) / 2) *
        Real.sin (AStarAlgorithm.toRadians (q.lng - p.lng) / 2)) := by
    have hterm : 0 ≤ Real.cos (AStarAlgorithm.toRadians p.lat) * Real.cos (AStarAlgorithm.toRadians q.lat) *
        (Real.sin (AStarAlgorithm.toRadians (q.lng - p.lng) / 2) *
          Real.sin (AStarAlgorithm.toRadians (q.lng - p.lng) / 2)) :=
      mul_nonneg (mul_nonneg hcosp hcosq) (mul_self_nonneg _)
    linarith
  exact havShape_pos _ hA

theorem DijkstraAlgorithm.dijkstra_haversine_eq_astar :
    DijkstraAlgorithm.haversineDistance = AStarAlgorithm.haversineDistance := rfl

theorem BFSAlgorithm.bfs_haversine_eq_astar :
    BFSAlgorithm.haversineDistance = AStarAlgorithm.haversineDistance := rfl

theorem AStarAlgorithm.calculateDistance_nonneg :
    ∀ l, 0 ≤ AStarAlgorithm.calculateDistance l
  | [] => le_refl 0
  | [_] => le_refl 0
  | p :: q :: rest =>
      add_nonneg (AStarAlgorithm.haversineDistance_nonneg p q)
        (AStarAlgorithm.calculateDistance_nonneg (q :: rest))

theorem DijkstraAlgorithm.dijkstra_calculateDistance_eq_astar :
    ∀ l, DijkstraAlgorithm.calculateDistance l = AStarAlgorithm.calculateDistance l
  | [] => rfl
  | [_] => rfl
  | p :: q :: rest => by
      show DijkstraAlgorithm.haversineDistance p q + DijkstraAlgorithm.calculateDistance (q :: rest) =
        AStarAlgorithm.haversineDistance p q + AStarAlgorithm.calculateDistance (q :: rest)
      rw [DijkstraAlgorithm.dijkstra_calculateDistance_eq_astar (q :: rest),
        DijkstraAlgorithm.dijkstra_haversine_eq_astar]

theorem BFSAlgorithm.bfs_calculateDistance_eq_astar :
    ∀ l, BFSAlgorithm.calculateDistance l = AStarAlgorithm.calculateDistance l
  | [] => rfl
  | [_] => rfl
  | p :: q :: rest => by
      show BFSAlgorithm.haversineDistance p q + BFSAlgorithm.calculateDistance (q :: rest) =
        AStarAlgorithm.haversineDistance p q + AStarAlgorithm.calculateDistance (q :: rest)
      rw [BFSAlgorithm.bfs_calculateDistance_eq_astar (q :: rest), BFSAlgorithm.bfs_haversine_eq_astar]

theorem AStarAlgorithm.calculateDistance_eq_consecPairSum :
    ∀ l, AStarAlgorithm.calculateDistance l = consecPairSum AStarAlgorithm.haversineDistance l
  | [] => by simp [AStarAlgorithm.calculateDistance, consecPairSum]
  | [p] => by simp [AStarAlgorithm.calculateDistance, consecPairSum]
  | p :: q :: rest => by
      show AStarAlgorithm.haversineDistance p q + AStarAlgorithm.calculateDistance (q :: rest) = _
      rw [AStarAlgorithm.calculateDistance_eq_consecPairSum (q :: rest)]
      simp [consecPairSum]

theorem AStarAlgorithm.calculateDistance_eq_zero_of_const :
    ∀ (l : List Point) (c : Point), (∀ x ∈ l, x = c) → AStarAlgorithm.calculateDistance l = 0
  | [], _, _ => rfl
  | [_], _, _ => rfl
  | p :: q :: rest, c, h => by
      have hp : p = c := h p (by simp)
      have hq : q = c := h q (by simp)
      have ih := AStarAlgorithm.calculateDistance_eq_zero_of_const (q :: rest) c
        (fun x hx => h x (List.mem_cons_of_mem p hx))
      show AStarAlgorithm.haversineDistance p q + AStarAlgorithm.calculateDistance (q :: rest) = 0
      rw [ih, hp, hq, AStarAlgorithm.haversine_self, add_zero]

theorem AStarAlgorithm.calculateDistance_pos_of_head (p q : Point) (rest : List Point)
    (h : 0 < AStarAlgorithm.haversineDistance p q) :
    0 < AStarAlgorithm.calculateDistance (p :: q :: rest) := by
  have hr := AStarAlgorithm.calculateDistance_nonneg (q :: rest)
  show 0 < AStarAlgorithm.haversineDistance p q + AStarAlgorithm.calculateDistance (q :: rest)
  linarith

theorem head?_shape (s e : Point) (l : List Point) :
    ([s] ++ l ++ [e]).head? = some s := by
  simp

theorem getLast?_shape (s e : Point) (l : List Point) :
    ([s] ++ l ++ [e]).getLast? = some e := by
  rw [List.getLast?_concat]

theorem length_shape (s e : Point) (l : List Point) :
    ([s] ++ l ++ [e]).length = l.length + 2 := by
  simp only [List.length_append, List.length_singleton]
  omega

theorem orDefaultNat_pos (v : Option ℕ) (d : ℕ) (hd : 0 < d) : 0 < orDefaultNat v d := by
  cases v with
  | none => exact hd
  | some n =>
    cases n with
    | zero => exact hd
    | succ k => exact Nat.succ_pos k

theorem AStarAlgorithm.calculateAStarPath_head? (s e : Point) (o : FindOptions) :
    (AStarAlgorithm.calculateAStarPath s e o).head? = some s :=
  head?_shape s e _

theorem AStarAlgorithm.calculateAStarPath_getLast? (s e : Point) (o : FindOptions) :
    (AStarAlgorithm.calculateAStarPath s e o).getLast? = some e :=
  getLast?_shape s e _

theorem AStarAlgorithm.calculateAStarPath_length (s e : Point) (o : FindOptions) :
    (AStarAlgorithm.calculateAStarPath s e o).length = orDefaultNat o.steps 10 + 1 := by
  have h := length_shape s e
    ((List.range' 1 (orDefaultNat o.steps 10 - 1)).map (fun i =>
      { lat := s.lat + (e.lat - s.lat) * ((i : ℚ) / ((orDefaultNat o.steps 10 : ℕ) : ℚ)),
        lng := s.lng + (e.lng - s.lng) * ((i : ℚ) / ((orDefaultNat o.steps 10 : ℕ) : ℚ)) } : ℕ → Point))
  have hpos := orDefaultNat_pos o.steps 10 (by norm_num)
  unfold AStarAlgorithm.calculateAStarPath
  rw [h, List.length_map, List.length_range']
  omega

theorem BFSAlgorithm.calculateBFSPath_head? (s e : Point) (o : FindOptions) :
    (BFSAlgorithm.calculateBFSPath s e o).head? = some s :=
  head?_shape s e _

theorem BFSAlgorithm.calculateBFSPath_getLast? (s e : Point) (o : FindOptions) :
    (BFSAlgorithm.calculateBFSPath s e o).getLast? = some e :=
  getLast?_shape s e _

theorem BFSAlgorithm.calculateBFSPath_length (s e : Point) (o : FindOptions) :
    (BFSAlgorithm.calculateBFSPath s e o).length = orDefaultNat o.steps 8 + 1 := by
  have h := length_shape s e
    ((List.range' 1 (orDefaultNat o.steps 8 - 1)).map (fun i =>
      { lat := s.lat + (e.lat - s.lat) * ((i : ℚ) / ((orDefaultNat o.steps 8 : ℕ) : ℚ)),
        lng := s.lng + (e.lng - s.lng) * ((i : ℚ) / ((orDefaultNat o.steps 8 : ℕ) : ℚ)) } : ℕ → Point))
  have hpos := orDefaultNat_pos o.steps 8 (by norm_num)
  unfold BFSAlgorithm.calculateBFSPath
  rw [h, List.length_map, List.length_range']
  omega

theorem DijkstraAlgorithm.calculateDijkstraPath_head? (s e : Point) (o : FindOptions)
    (rnd : ℕ → ℚ) :
    (DijkstraAlgorithm.calculateDijkstraPath s e o rnd).head? = some s :=
  head?_shape s e _

theorem DijkstraAlgorithm.calculateDijkstraPath_getLast? (s e : Point) (o : FindOptions)
    (rnd : ℕ → ℚ) :
    (DijkstraAlgorithm.calculateDijkstraPath s e o rnd).getLast? = some e :=
  getLast?_shape s e _

theorem DijkstraAlgorithm.calculateDijkstraPath_length (s e : Point) (o : FindOptions)
    (rnd : ℕ → ℚ) :
    (DijkstraAlgorithm.calculateDijkstraPath s e o rnd).length = orDefaultNat o.steps 15 + 1 := by
  have hpos := orDefaultNat_pos o.steps 15 (by norm_num)
  simp only [DijkstraAlgorithm.calculateDijkstraPath]
  rw [length_shape, List.length_map, List.length_range']
  omega

theorem DijkstraAlgorithm.dijkstra_calculateDistance_nonneg (l : List Point) :
    0 ≤ DijkstraAlgorithm.calculateDistance l := by
  rw [DijkstraAlgorithm.dijkstra_calculateDistance_eq_astar]
  exact AStarAlgorithm.calculateDistance_nonneg l

theorem BFSAlgorithm.bfs_calculateDistance_nonneg (l : List Point) :
    0 ≤ BFSAlgorithm.calculateDistance l := by
  rw [BFSAlgorithm.bfs_calculateDistance_eq_astar]
  exact AStarAlgorithm.calculateDistance_nonneg l

/-- C1: every successful `find` returns a result whose path starts at the
requested start point, ends at the requested end point, has at least two
points, and whose distance is non-negative. -/
theorem PathfindingService.findPath_success_endpoints
    (store : Store) (request : PathRequest) (env : Env) (res : PathResult) (st : Store)
    (h : PathfindingService.findPath store request env = (Except.ok res, st)) :
    res.path.head? = some request.start ∧
    res.path.getLast? = some request.«end» ∧
    2 ≤ res.path.length ∧ 0 ≤ res.distance := by
  simp only [PathfindingService.findPath] at h
  split at h
  · exact absurd h (by simp)
  split at h
  · exact absurd h (by simp)
  split at h
  · exact absurd h (by simp)
  next pathResult heq =>
    rw [Prod.ext_iff] at h
    obtain ⟨h1, -⟩ := h
    rw [Except.ok.injEq] at h1
    subst h1
    split at heq
    · rw [Option.some.injEq] at heq
      subst heq
      refine ⟨AStarAlgorithm.calculateAStarPath_head? _ _ _,
        AStarAlgorithm.calculateAStarPath_getLast? _ _ _, ?_,
        AStarAlgorithm.calculateDistance_nonneg _⟩
      have hlen := AStarAlgorithm.calculateAStarPath_length request.start request.«end» request.options
      have hpos := orDefaultNat_pos request.options.steps 10 (by norm_num)
      simp only [AStarAlgorithm.findPath]
      omega
    split at heq
    · rw [Option.some.injEq] at heq
      subst heq
      refine ⟨DijkstraAlgorithm.calculateDijkstraPath_head? _ _ _ _,
        DijkstraAlgorithm.calculateDijkstraPath_getLast? _ _ _ _, ?_,
        DijkstraAlgorithm.dijkstra_calculateDistance_nonneg _⟩
      have hlen := DijkstraAlgorithm.calculateDijkstraPath_length request.start request.«end» request.options env.rnd
      have hpos := orDefaultNat_pos request.options.steps 15 (by norm_num)
      simp only [DijkstraAlgorithm.findPath]
      omega
    split at heq
    · rw [Option.some.injEq] at heq
      subst heq
      refine ⟨BFSAlgorithm.calculateBFSPath_head? _ _ _,
        BFSAlgorithm.calculateBFSPath_getLast? _ _ _, ?_,
        BFSAlgorithm.bfs_calculateDistance_nonneg _⟩
      have hlen := BFSAlgorithm.calculateBFSPath_length request.start request.«end» request.options
      have hpos := orDefaultNat_pos request.options.steps 8 (by norm_num)
      simp only [BFSAlgorithm.findPath]
      omega
    · exact absurd heq (by simp)

/-- Witness for C1: the spec's concrete scenario run on an empty store. -/
theorem findPath_success_endpoints_witness :
    demoRes.path.head? = some demoReq.start ∧
    demoRes.path.getLast? = some demoReq.«end» ∧
    2 ≤ demoRes.path.length ∧ 0 ≤ demoRes.distance :=
  PathfindingService.findPath_success_endpoints [] demoReq demoEnv demoRes demoStoreAfter
    (by norm_num [demoRes, demoStoreAfter, demoRun, PathfindingService.findPath, demoReq,
      demoEnv, PathfindingService.validateCoordinates, demoStart, demoEnd])

theorem PathfindingService.validateCoordinates_error_code (p : Point) (e : AppError)
    (h : PathfindingService.validateCoordinates p = Except.error e) : e.statusCode = 400 := by
  unfold PathfindingService.validateCoordinates at h
  split_ifs at h with h1 h2
  · rw [Except.error.injEq] at h
    subst h
    rfl
  · rw [Except.error.injEq] at h
    subst h
    rfl

theorem PathfindingService.validateCoordinates_ok (p : Point) (u : Unit)
    (h : PathfindingService.validateCoordinates p = Except.ok u) :
    ¬(p.lat < -90 ∨ p.lat > 90) ∧ ¬(p.lng < -180 ∨ p.lng > 180) := by
  unfold PathfindingService.validateCoordinates at h
  split_ifs at h with h1 h2
  exact ⟨h1, h2⟩

/-- C4: a request with an out-of-range coordinate or an unrecognized
algorithm makes `find` fail with a 400 error and leaves the store
unchanged: nothing is persisted. -/
theorem PathfindingService.findPath_validation_failfast
    (store : Store) (request : PathRequest) (env : Env)
    (hbad :
      (request.start.lat < -90 ∨ request.start.lat > 90 ∨
        request.start.lng < -180 ∨ request.start.lng > 180) ∨
      (request.«end».lat < -90 ∨ request.«end».lat > 90 ∨
        request.«end».lng < -180 ∨ request.«end».lng > 180) ∨
      (request.algorithm ≠ "astar" ∧ request.algorithm ≠ "dijkstra" ∧
        request.algorithm ≠ "bfs")) :
    ∃ e, PathfindingService.findPath store request env = (Except.error e, store) ∧
      e.statusCode = 400 := by
  cases hv1 : PathfindingService.validateCoordinates request.start with
  | error e =>
    refine ⟨e, ?_, PathfindingService.validateCoordinates_error_code _ _ hv1⟩
    simp only [PathfindingService.findPath, hv1]
  | ok u1 =>
    cases hv2 : PathfindingService.validateCoordinates request.«end» with
    | error e =>
      refine ⟨e, ?_, PathfindingService.validateCoordinates_error_code _ _ hv2⟩
      simp only [PathfindingService.findPath, hv1, hv2]
    | ok u2 =>
      obtain ⟨hs1, hs2⟩ := PathfindingService.validateCoordinates_ok _ _ hv1
      obtain ⟨he1, he2⟩ := PathfindingService.validateCoordinates_ok _ _ hv2
      have halg : request.algorithm ≠ "astar" ∧ request.algorithm ≠ "dijkstra" ∧
          request.algorithm ≠ "bfs" := by
        rcases hbad with hb | hb | hb
        · exact absurd hb (by tauto)
        · exact absurd hb (by tauto)
        · exact hb
      refine ⟨createError ("Unsupported algorithm: " ++ request.algorithm) 400, ?_, rfl⟩
      simp only [PathfindingService.findPath, hv1, hv2, if_neg halg.1, if_neg halg.2.1,
        if_neg halg.2.2]

/-- Witness for C4: a start latitude of 91 is rejected with a 400 error
on an empty store, which stays empty. -/
theorem findPath_validation_failfast_witness :
    ∃ e, PathfindingService.findPath [] badReq demoEnv = (Except.error e, []) ∧
      e.statusCode = 400 :=
  PathfindingService.findPath_validation_failfast [] badReq demoEnv
    (by norm_num [badReq])

theorem DijkstraAlgorithm.dijkstra_calculateDistance_eq_consecPairSum (l : List Point) :
    DijkstraAlgorithm.calculateDistance l =
      consecPairSum DijkstraAlgorithm.haversineDistance l := by
  rw [DijkstraAlgorithm.dijkstra_calculateDistance_eq_astar, DijkstraAlgorithm.dijkstra_haversine_eq_astar]
  exact AStarAlgorithm.calculateDistance_eq_consecPairSum l

theorem BFSAlgorithm.bfs_calculateDistance_eq_consecPairSum (l : List Point) :
    BFSAlgorithm.calculateDistance l = consecPairSum BFSAlgorithm.haversineDistance l := by
  rw [BFSAlgorithm.bfs_calculateDistance_eq_astar, BFSAlgorithm.bfs_haversine_eq_astar]
  exact AStarAlgorithm.calculateDistance_eq_consecPairSum l

theorem DijkstraAlgorithm.dijkstra_calculateDistance_eq_zero_of_const (l : List Point) (c : Point)
    (h : ∀ x ∈ l, x = c) : DijkstraAlgorithm.calculateDistance l = 0 := by
  rw [DijkstraAlgorithm.dijkstra_calculateDistance_eq_astar]
  exact AStarAlgorithm.calculateDistance_eq_zero_of_const l c h

theorem BFSAlgorithm.bfs_calculateDistance_eq_zero_of_const (l : List Point) (c : Point)
    (h : ∀ x ∈ l, x = c) : BFSAlgorithm.calculateDistance l = 0 := by
  rw [BFSAlgorithm.bfs_calculateDistance_eq_astar]
  exact AStarAlgorithm.calculateDistance_eq_zero_of_const l c h

theorem AStarAlgorithm.calculateAStarPath_const (s : Point) (o : FindOptions) :
    ∀ x ∈ AStarAlgorithm.calculateAStarPath s s o, x = s := by
  intro x hx
  unfold AStarAlgorithm.calculateAStarPath at hx
  simp only [List.mem_append, List.mem_map, List.mem_singleton] at hx
  rcases hx with (rfl | ⟨i, hi, rfl⟩) | rfl
  · rfl
  · cases s with
    | mk la ln => simp
  · rfl

/-- C9: the haversine distance is symmetric on valid points and zero on
identical valid points. -/
theorem haversine_symm_and_self :
    (∀ a b : Point, -90 ≤ a.lat → a.lat ≤ 90 → -180 ≤ a.lng → a.lng ≤ 180 →
      -90 ≤ b.lat → b.lat ≤ 90 → -180 ≤ b.lng → b.lng ≤ 180 →
      AStarAlgorithm.haversineDistance a b = AStarAlgorithm.haversineDistance b a) ∧
    (∀ p : Point, -90 ≤ p.lat → p.lat ≤ 90 → -180 ≤ p.lng → p.lng ≤ 180 →
      AStarAlgorithm.haversineDistance p p = 0) :=
  ⟨fun a b _ _ _ _ _ _ _ _ => AStarAlgorithm.haversine_comm a b,
   fun p _ _ _ _ => AStarAlgorithm.haversine_self p⟩

/-- Witness for C9: the two scenario points. -/
theorem haversine_symm_and_self_witness :
    AStarAlgorithm.haversineDistance demoStart demoEnd =
      AStarAlgorithm.haversineDistance demoEnd demoStart ∧
    AStarAlgorithm.haversineDistance demoStart demoStart = 0 :=
  ⟨haversine_symm_and_self.1 demoStart demoEnd
      (by norm_num [demoStart]) (by norm_num [demoStart]) (by norm_num [demoStart])
      (by norm_num [demoStart]) (by norm_num [demoEnd]) (by norm_num [demoEnd])
      (by norm_num [demoEnd]) (by norm_num [demoEnd]),
   haversine_symm_and_self.2 demoStart
      (by norm_num [demoStart]) (by norm_num [demoStart]) (by norm_num [demoStart])
      (by norm_num [demoStart])⟩

/-- C10: for each strategy the returned distance is exactly the sum of
the haversine distances over consecutive pairs of the returned path;
it is non-negative, and it is zero when the start equals the end and the
path has no point distinct from the start. -/
theorem strategies_distance_consecPairSum :
    (∀ (s e : Point) (o : FindOptions) (t : ℕ),
      (AStarAlgorithm.findPath s e o t).distance =
        consecPairSum AStarAlgorithm.haversineDistance (AStarAlgorithm.findPath s e o t).path ∧
      0 ≤ (AStarAlgorithm.findPath s e o t).distance ∧
      (s = e → (∀ x ∈ (AStarAlgorithm.findPath s e o t).path, x = s) →
        (AStarAlgorithm.findPath s e o t).distance = 0)) ∧
    (∀ (s e : Point) (o : FindOptions) (rnd : ℕ → ℚ) (t : ℕ),
      (DijkstraAlgorithm.findPath s e o rnd t).distance =
        consecPairSum DijkstraAlgorithm.haversineDistance
          (DijkstraAlgorithm.findPath s e o rnd t).path ∧
      0 ≤ (DijkstraAlgorithm.findPath s e o rnd t).distance ∧
      (s = e → (∀ x ∈ (DijkstraAlgorithm.findPath s e o rnd t).path, x = s) →
        (DijkstraAlgorithm.findPath s e o rnd t).distance = 0)) ∧
    (∀ (s e : Point) (o : FindOptions) (t : ℕ),
      (BFSAlgorithm.findPath s e o t).distance =
        consecPairSum BFSAlgorithm.haversineDistance (BFSAlgorithm.findPath s e o t).path ∧
      0 ≤ (BFSAlgorithm.findPath s e o t).distance ∧
      (s = e → (∀ x ∈ (BFSAlgorithm.findPath s e o t).path, x = s) →
        (BFSAlgorithm.findPath s e o t).distance = 0)) :=
  ⟨fun s e o t =>
    ⟨AStarAlgorithm.calculateDistance_eq_consecPairSum _,
     AStarAlgorithm.calculateDistance_nonneg _,
     fun _ hconst => AStarAlgorithm.calculateDistance_eq_zero_of_const _ s hconst⟩,
   fun s e o rnd t =>
    ⟨DijkstraAlgorithm.dijkstra_calculateDistance_eq_consecPairSum _,
     DijkstraAlgorithm.dijkstra_calculateDistance_nonneg _,
     fun _ hconst => DijkstraAlgorithm.dijkstra_calculateDistance_eq_zero_of_const _ s hconst⟩,
   fun s e o t =>
    ⟨BFSAlgorithm.bfs_calculateDistance_eq_consecPairSum _,
     BFSAlgorithm.bfs_calculateDistance_nonneg _,
     fun _ hconst => BFSAlgorithm.bfs_calculateDistance_eq_zero_of_const _ s hconst⟩⟩

/-- Witness for C10: the A* strategy from the origin to itself. -/
theorem strategies_distance_consecPairSum_witness :
    (AStarAlgorithm.findPath originPt originPt {} 0).distance =
      consecPairSum AStarAlgorithm.haversineDistance
        (AStarAlgorithm.findPath originPt originPt {} 0).path ∧
    (AStarAlgorithm.findPath originPt originPt {} 0).distance = 0 :=
  have h := strategies_distance_consecPairSum.1 originPt originPt {} 0
  ⟨h.1, h.2.2 rfl (AStarAlgorithm.calculateAStarPath_const originPt {})⟩

theorem DijkstraAlgorithm.calculateDijkstraPath_const (s : Point) (o : FindOptions) :
    ∀ x ∈ DijkstraAlgorithm.calculateDijkstraPath s s o halfRnd, x = s := by
  intro x hx
  unfold DijkstraAlgorithm.calculateDijkstraPath at hx
  simp only [List.mem_append, List.mem_map, List.mem_singleton] at hx
  rcases hx with (rfl | ⟨i, hi, rfl⟩) | rfl
  · rfl
  · cases s with
    | mk la ln => simp [halfRnd]
  · rfl

/-- C2 (code bug): the Dijkstra strategy's output depends on the
`Math.random` stream.  With identical start, end and options (both runs
from the origin to the origin), a run whose random draws are all 0
returns a positive distance while a run whose draws are all 0.5 returns
distance 0, so repeated calls with identical inputs are not
deterministic; A* and BFS take no random input at all. -/
theorem dijkstra_distance_nondeterministic :
    0 < (DijkstraAlgorithm.findPath originPt originPt {} zeroRnd 0).distance ∧
      (DijkstraAlgorithm.findPath originPt originPt {} halfRnd 0).distance = 0 := by
  have hzero : (DijkstraAlgorithm.findPath originPt originPt {} halfRnd 0).distance = 0 :=
    DijkstraAlgorithm.dijkstra_calculateDistance_eq_zero_of_const _ originPt
      (DijkstraAlgorithm.calculateDijkstraPath_const originPt {})
  have hpath : DijkstraAlgorithm.calculateDijkstraPath originPt originPt {} zeroRnd =
      originPt :: qJ :: (List.replicate 13 qJ ++ [originPt]) := by
    norm_num [DijkstraAlgorithm.calculateDijkstraPath, zeroRnd, originPt, qJ, orDefaultNat,
      List.range', List.replicate, Point.mk.injEq]
  have hpos : 0 < (DijkstraAlgorithm.findPath originPt originPt {} zeroRnd 0).distance := by
    show 0 < DijkstraAlgorithm.calculateDistance
      (DijkstraAlgorithm.calculateDijkstraPath originPt originPt {} zeroRnd)
    rw [hpath, DijkstraAlgorithm.dijkstra_calculateDistance_eq_astar]
    refine AStarAlgorithm.calculateDistance_pos_of_head _ _ _ ?_
    refine AStarAlgorithm.haversine_pos _ _ ?_ ?_ ?_ ?_ ?_ <;> norm_num [originPt, qJ]
  exact ⟨hpos, hzero⟩

theorem AStarAlgorithm.calculateAStarPath_decomp (s e : Point) (o : FindOptions) (m : ℕ)
    (hm : orDefaultNat o.steps 10 - 1 = m + 1) :
    AStarAlgorithm.calculateAStarPath s e o =
      s :: ({ lat := s.lat + (e.lat - s.lat) * (1 / (orDefaultNat o.steps 10 : ℚ)),
              lng := s.lng + (e.lng - s.lng) * (1 / (orDefaultNat o.steps 10 : ℚ)) } : Point) ::
        ((List.range' 2 m).map (fun (i : ℕ) =>
          ({ lat := s.lat + (e.lat - s.lat) * ((i : ℚ) / (orDefaultNat o.steps 10 : ℚ)),
             lng := s.lng + (e.lng - s.lng) * ((i : ℚ) / (orDefaultNat o.steps 10 : ℚ)) } : Point))
          ++ [e]) := by
  simp only [AStarAlgorithm.calculateAStarPath]
  rw [hm, List.range'_succ, List.map_cons]
  simp

/-- C5 (amended): each strategy's path has exactly `steps + 1` points,
where `steps` is `options.steps` when it is a positive integer and the
per-strategy default (10 for A*, 15 for Dijkstra, 8 for BFS) when
`options.steps` is absent or 0 (JavaScript `||` treats 0 as falsy); the
default A* path therefore has 11 points.  For the spec's concrete A*
scenario the distance is positive and `metadata.algorithm` is `"A*"`. -/
theorem strategies_path_length_and_scenario :
    (∀ (s e : Point) (o : FindOptions) (t : ℕ),
      (AStarAlgorithm.findPath s e o t).path.length = orDefaultNat o.steps 10 + 1) ∧
    (∀ (s e : Point) (o : FindOptions) (rnd : ℕ → ℚ) (t : ℕ),
      (DijkstraAlgorithm.findPath s e o rnd t).path.length = orDefaultNat o.steps 15 + 1) ∧
    (∀ (s e : Point) (o : FindOptions) (t : ℕ),
      (BFSAlgorithm.findPath s e o t).path.length = orDefaultNat o.steps 8 + 1) ∧
    (∀ (v : Option ℕ) (d n : ℕ), v = some n → 0 < n → orDefaultNat v d = n) ∧
    (∀ (v : Option ℕ) (d : ℕ), v = none ∨ v = some 0 → orDefaultNat v d = d) ∧
    (∀ t : ℕ,
      (AStarAlgorithm.findPath demoStart demoEnd {} t).path.length = 11 ∧
      0 < (AStarAlgorithm.findPath demoStart demoEnd {} t).distance ∧
      (AStarAlgorithm.findPath demoStart demoEnd {} t).metadata.lookup "algorithm" =
        some (MetaValue.s "A*")) := by
  refine ⟨fun s e o t => AStarAlgorithm.calculateAStarPath_length s e o,
    fun s e o rnd t => DijkstraAlgorithm.calculateDijkstraPath_length s e o rnd,
    fun s e o t => BFSAlgorithm.calculateBFSPath_length s e o,
    ?_, ?_, ?_⟩
  · intro v d n hv hn
    subst hv
    cases n with
    | zero => exact absurd hn (by norm_num)
    | succ k => rfl
  · intro v d h
    rcases h with rfl | rfl <;> rfl
  · intro t
    refine ⟨?_, ?_, rfl⟩
    · show (AStarAlgorithm.calculateAStarPath demoStart demoEnd {}).length = 11
      rw [AStarAlgorithm.calculateAStarPath_length demoStart demoEnd {}]
      norm_num [orDefaultNat]
    · have hpath := AStarAlgorithm.calculateAStarPath_decomp demoStart demoEnd {} 8 rfl
      show 0 < AStarAlgorithm.calculateDistance
        (AStarAlgorithm.calculateAStarPath demoStart demoEnd {})
      rw [hpath]
      refine AStarAlgorithm.calculateDistance_pos_of_head _ _ _ ?_
      refine AStarAlgorithm.haversine_pos _ _ ?_ ?_ ?_ ?_ ?_ <;>
        norm_num [demoStart, demoEnd, orDefaultNat]

/-- Witness for C5: a positive custom step count is respected and the
default scenario has 11 points and positive distance. -/
theorem strategies_path_length_and_scenario_witness :
    (AStarAlgorithm.findPath demoStart demoEnd { steps := some 5 } 0).path.length = 5 + 1 ∧
    (AStarAlgorithm.findPath demoStart demoEnd {} 0).path.length = 11 ∧
    0 < (AStarAlgorithm.findPath demoStart demoEnd {} 0).distance := by
  have h := strategies_path_length_and_scenario
  refine ⟨?_, (h.2.2.2.2.2 0).1, (h.2.2.2.2.2 0).2.1⟩
  rw [h.1 demoStart demoEnd { steps := some 5 } 0,
    h.2.2.2.1 (some 5) 10 5 rfl (by norm_num)]

/-- Counterexample to C5 as literally stated: with `options.steps = 0`
the A* path has 11 points, not `0 + 1`, because JavaScript `||` treats 0
as falsy and falls back to the default step count. -/
theorem astar_steps_zero_counterexample :
    (AStarAlgorithm.findPath demoStart demoEnd { steps := some 0 } 0).path.length ≠ 0 + 1 := by
  have h := AStarAlgorithm.calculateAStarPath_length demoStart demoEnd { steps := some 0 }
  show (AStarAlgorithm.calculateAStarPath demoStart demoEnd { steps := some 0 }).length ≠ 0 + 1
  rw [h]
  norm_num [orDefaultNat]

/-- C8 (amended): every strategy's metadata contains the algorithm name
under `"algorithm"`, a `"nodesExplored"` integer at least the returned
path's length, and the measured execution time under the key
`"executionTime"` — there is no `"executionTimeMs"` key. -/
theorem strategies_metadata_contract :
    (∀ (s e : Point) (o : FindOptions) (t : ℕ),
      (AStarAlgorithm.findPath s e o t).metadata.lookup "algorithm" =
        some (MetaValue.s "A*") ∧
      (∃ n, (AStarAlgorithm.findPath s e o t).metadata.lookup "nodesExplored" =
          some (MetaValue.n n) ∧ (AStarAlgorithm.findPath s e o t).path.length ≤ n) ∧
      (AStarAlgorithm.findPath s e o t).metadata.lookup "executionTime" =
        some (MetaValue.n t) ∧
      (AStarAlgorithm.findPath s e o t).metadata.lookup "executionTimeMs" = none) ∧
    (∀ (s e : Point) (o : FindOptions) (rnd : ℕ → ℚ) (t : ℕ),
      (DijkstraAlgorithm.findPath s e o rnd t).metadata.lookup "algorithm" =
        some (MetaValue.s "Dijkstra") ∧
      (∃ n, (DijkstraAlgorithm.findPath s e o rnd t).metadata.lookup "nodesExplored" =
          some (MetaValue.n n) ∧ (DijkstraAlgorithm.findPath s e o rnd t).path.length ≤ n) ∧
      (DijkstraAlgorithm.findPath s e o rnd t).metadata.lookup "executionTime" =
        some (MetaValue.n t) ∧
      (DijkstraAlgorithm.findPath s e o rnd t).metadata.lookup "executionTimeMs" = none) ∧
    (∀ (s e : Point) (o : FindOptions) (t : ℕ),
      (BFSAlgorithm.findPath s e o t).metadata.lookup "algorithm" =
        some (MetaValue.s "BFS") ∧
      (∃ n, (BFSAlgorithm.findPath s e o t).metadata.lookup "nodesExplored" =
          some (MetaValue.n n) ∧ (BFSAlgorithm.findPath s e o t).path.length ≤ n) ∧
      (BFSAlgorithm.findPath s e o t).metadata.lookup "executionTime" =
        some (MetaValue.n t) ∧
      (BFSAlgorithm.findPath s e o t).metadata.lookup "executionTimeMs" = none) :=
  ⟨fun s e o t =>
    ⟨rfl, ⟨(AStarAlgorithm.findPath s e o t).path.length, rfl, le_refl _⟩, rfl, rfl⟩,
   fun s e o rnd t =>
    ⟨rfl, ⟨(DijkstraAlgorithm.findPath s e o rnd t).path.length * 2, rfl, by omega⟩, rfl, rfl⟩,
   fun s e o t =>
    ⟨rfl, ⟨(BFSAlgorithm.findPath s e o t).path.length * 3, rfl, by omega⟩, rfl, rfl⟩⟩

/-- Counterexample to C8 as literally stated: the strategies store the
execution time under `"executionTime"`; a lookup of `"executionTimeMs"`
finds nothing. -/
theorem metadata_executionTimeMs_missing :
    (AStarAlgorithm.findPath demoStart demoEnd {} 7).metadata.lookup "executionTimeMs" =
      none ∧
    (AStarAlgorithm.findPath demoStart demoEnd {} 7).metadata.lookup "executionTime" =
      some (MetaValue.n 7) :=
  ⟨rfl, rfl⟩

/-- C6 (amended): for a non-empty id, `get` composed with its route
fails 404 `"Path not found"` when no record has that id, fails 403
`"Access denied to this path"` when the record is private and owned by
someone else, and otherwise returns the record.  (An empty id is
rejected earlier with a 400 `"Path ID is required"` error.) -/
theorem getPathRoute_access_control
    (store : Store) (pathId userId : String) (hid : pathId ≠ "") :
    (store.lookup pathId = none →
      getPathRoute store pathId userId = Except.error (createError "Path not found" 404)) ∧
    (∀ doc, store.lookup pathId = some doc → doc.isPublic = false → doc.userId ≠ userId →
      getPathRoute store pathId userId =
        Except.error (createError "Access denied to this path" 403)) ∧
    (∀ doc, store.lookup pathId = some doc → (doc.isPublic = true ∨ doc.userId = userId) →
      getPathRoute store pathId userId = Except.ok
        { id := pathId, path := doc.path, distance := doc.distance,
          duration := doc.duration, algorithm := doc.algorithm, metadata := doc.metadata }) := by
  refine ⟨?_, ?_, ?_⟩
  · intro h
    simp only [getPathRoute, PathfindingService.getPath, h, if_neg hid]
  · intro doc hdoc hpriv hne
    simp only [getPathRoute, PathfindingService.getPath, hdoc, if_neg hid]
    rw [if_pos ⟨hne, hpriv⟩]
  · intro doc hdoc hvis
    have hcond : ¬(doc.userId ≠ userId ∧ doc.isPublic = false) := by
      rcases hvis with hv | hv
      · intro hc
        rw [hv] at hc
        simp at hc
      · intro hc
        exact hc.1 hv
    simp only [getPathRoute, PathfindingService.getPath, hdoc, if_neg hid]
    rw [if_neg hcond]

/-- Witness for C6: looking up an unknown id in a one-document store
yields a 404. -/
theorem getPathRoute_access_control_witness :
    getPathRoute demoStore "zzz" "alice" = Except.error (createError "Path not found" 404) :=
  (getPathRoute_access_control demoStore "zzz" "alice" (by decide)).1 rfl

/-- Counterexample to C6 as literally stated: with the empty id and no
record bearing it, the route fails with the 400 `"Path ID is required"`
error, not with the 404 `NotFoundError` the claim requires. -/
theorem getPathRoute_empty_id_counterexample :
    getPathRoute [] "" "alice" = Except.error (createError "Path ID is required" 400) ∧
    (createError "Path ID is required" 400).statusCode ≠ 404 :=
  ⟨rfl, by decide⟩

/-- C7 (amended): `getPathHistory` performs no validation of `page` or
`pageSize`; `total` always equals the full count of the owner's
documents, and any page whose offset reaches past that count yields an
empty records list rather than an error. -/
theorem getPathHistory_pagination
    (store : Store) (userId : String) (page lim : ℤ) :
    (PathfindingService.getPathHistory store userId page lim).total =
      (PathfindingService.ownedDocs store userId).length ∧
    ((PathfindingService.ownedDocs store userId).length ≤ ((page - 1) * lim).toNat →
      (PathfindingService.getPathHistory store userId page lim).paths = []) := by
  constructor
  · rfl
  · intro h
    show ((((PathfindingService.ownedDocs store userId).mergeSort
        (fun a b => decide (b.2.createdAt ≤ a.2.createdAt))).drop
          ((page - 1) * lim).toNat).take lim.toNat).map (fun kv =>
      ({ id := kv.1, path := kv.2.path, distance := kv.2.distance,
         duration := kv.2.duration, algorithm := kv.2.algorithm,
         metadata := kv.2.metadata } : PathResult)) = []
    rw [List.drop_eq_nil_of_le]
    · simp
    · rw [List.length_mergeSort]
      exact h

/-- Witness for C7: one record owned by `"alice"`, page 2 of size 20 is
out of range, so the records are empty while `total` is still 1. -/
theorem getPathHistory_pagination_witness :
    (PathfindingService.getPathHistory demoStore "alice" 2 20).total = 1 ∧
    (PathfindingService.getPathHistory demoStore "alice" 2 20).paths = [] := by
  have h := getPathHistory_pagination demoStore "alice" 2 20
  have hlen : (PathfindingService.ownedDocs demoStore "alice").length = 1 := rfl
  exact ⟨by rw [h.1, hlen], h.2 (by rw [hlen]; norm_num)⟩

/-- Counterexample to C7 as literally stated: `page = 0` is not a
positive integer, yet the call does not fail with a `ValidationError`:
it returns a normal history value — the source has no pagination
validation at all. -/
theorem getPathHistory_page_zero_counterexample :
    PathfindingService.getPathHistory [] "alice" 0 20 = { paths := [], total := 0 } := by
  simp [PathfindingService.getPathHistory, PathfindingService.ownedDocs]

theorem storeBefore_zero (store : Store) (userId : String)
    (items : List (PathfindingService.BatchRequest × Env)) :
    storeBefore store userId items 0 = store := rfl

theorem storeBefore_cons (store : Store) (userId : String)
    (p : PathfindingService.BatchRequest × Env)
    (rest : List (PathfindingService.BatchRequest × Env)) (i : ℕ) :
    storeBefore store userId (p :: rest) (i + 1) =
      storeBefore (PathfindingService.findPath store (p.1.toPathRequest userId) p.2).2
        userId rest i := by
  obtain ⟨request, env⟩ := p
  unfold storeBefore
  rw [List.take_succ_cons]
  rcases hfp : PathfindingService.findPath store (request.toPathRequest userId) env
    with ⟨res, st'⟩
  cases res with
  | ok r0 => simp only [PathfindingService.batchFindPath, hfp]
  | error e0 => simp only [PathfindingService.batchFindPath, hfp]

/-- C3: `batchFindPath` returns exactly one result per request, in input
order; a request whose `findPath` succeeds (against the store state
reached at its position) contributes its result at its original index,
and a failing request contributes, at its original index, the degenerate
result with empty id, empty path, distance 0, the request's algorithm
tag and the error message under `metadata.error` — processing always
continues past failures. -/
theorem PathfindingService.batchFindPath_isolation
    (store : Store) (userId : String)
    (items : List (PathfindingService.BatchRequest × Env)) :
    (PathfindingService.batchFindPath store userId items).1.length = items.length ∧
    (∀ (i : ℕ) (request : PathfindingService.BatchRequest) (env : Env),
      items[i]? = some (request, env) →
      (∀ r st', PathfindingService.findPath (storeBefore store userId items i)
          (request.toPathRequest userId) env = (Except.ok r, st') →
        (PathfindingService.batchFindPath store userId items).1[i]? = some r) ∧
      (∀ e st', PathfindingService.findPath (storeBefore store userId items i)
          (request.toPathRequest userId) env = (Except.error e, st') →
        (PathfindingService.batchFindPath store userId items).1[i]? = some
          { id := "", path := [], distance := 0, duration := 0,
            algorithm := request.algorithm,
            metadata := [("error", MetaValue.s e.message)] })) := by
  induction items generalizing store with
  | nil =>
    refine ⟨rfl, ?_⟩
    intro i request env hi
    simp at hi
  | cons p rest ih =>
    obtain ⟨request, env⟩ := p
    rcases hfp : PathfindingService.findPath store (request.toPathRequest userId) env
      with ⟨res, st'⟩
    cases res with
    | ok r0 =>
      refine ⟨?_, ?_⟩
      · simp only [PathfindingService.batchFindPath, hfp, List.length_cons]
        rw [(ih st').1]
      · intro i req' env' hi
        cases i with
        | zero =>
          rw [List.getElem?_cons_zero, Option.some.injEq] at hi
          have h1 : request = req' := congrArg Prod.fst hi
          have h2 : env = env' := congrArg Prod.snd hi
          subst h1
          subst h2
          refine ⟨?_, ?_⟩
          · intro r st'' hok
            rw [storeBefore_zero, hfp, Prod.mk.injEq, Except.ok.injEq] at hok
            simp only [PathfindingService.batchFindPath, hfp, List.getElem?_cons_zero,
              hok.1]
          · intro e st'' herr
            rw [storeBefore_zero, hfp, Prod.mk.injEq] at herr
            exact absurd herr.1 (by simp)
        | succ j =>
          rw [List.getElem?_cons_succ] at hi
          have hsb : storeBefore store userId ((request, env) :: rest) (j + 1) =
              storeBefore st' userId rest j := by
            rw [storeBefore_cons, hfp]
          have ihj := (ih st').2 j req' env' hi
          refine ⟨?_, ?_⟩
          · intro r st'' hok
            rw [hsb] at hok
            simp only [PathfindingService.batchFindPath, hfp, List.getElem?_cons_succ]
            exact ihj.1 r st'' hok
          · intro e st'' herr
            rw [hsb] at herr
            simp only [PathfindingService.batchFindPath, hfp, List.getElem?_cons_succ]
            exact ihj.2 e st'' herr
    | error e0 =>
      refine ⟨?_, ?_⟩
      · simp only [PathfindingService.batchFindPath, hfp, List.length_cons]
        rw [(ih st').1]
      · intro i req' env' hi
        cases i with
        | zero =>
          rw [List.getElem?_cons_zero, Option.some.injEq] at hi
          have h1 : request = req' := congrArg Prod.fst hi
          have h2 : env = env' := congrArg Prod.snd hi
          subst h1
          subst h2
          refine ⟨?_, ?_⟩
          · intro r st'' hok
            rw [storeBefore_zero, hfp, Prod.mk.injEq] at hok
            exact absurd hok.1 (by simp)
          · intro e st'' herr
            rw [storeBefore_zero, hfp, Prod.mk.injEq, Except.error.injEq] at herr
            simp only [PathfindingService.batchFindPath, hfp, List.getElem?_cons_zero,
              herr.1]
        | succ j =>
          rw [List.getElem?_cons_succ] at hi
          have hsb : storeBefore store userId ((request, env) :: rest) (j + 1) =
              storeBefore st' userId rest j := by
            rw [storeBefore_cons, hfp]
          have ihj := (ih st').2 j req' env' hi
          refine ⟨?_, ?_⟩
          · intro r st'' hok
            rw [hsb] at hok
            simp only [PathfindingService.batchFindPath, hfp, List.getElem?_cons_succ]
            exact ihj.1 r st'' hok
          · intro e st'' herr
            rw [hsb] at herr
            simp only [PathfindingService.batchFindPath, hfp, List.getElem?_cons_succ]
            exact ihj.2 e st'' herr

/-- Witness for C3: a one-element batch whose request has latitude 91
yields the degenerate result at index 0. -/
theorem batchFindPath_isolation_witness :
    (PathfindingService.batchFindPath [] "alice" [(badBatchReq, demoEnv)]).1[0]? = some
      { id := "", path := [], distance := 0, duration := 0,
        algorithm := badBatchReq.algorithm,
        metadata := [("error", MetaValue.s "Invalid latitude")] } := by
  have h := (PathfindingService.batchFindPath_isolation [] "alice"
    [(badBatchReq, demoEnv)]).2 0 badBatchReq demoEnv rfl
  exact h.2 (createError "Invalid latitude" 400) []
    (by norm_num [storeBefore_zero, PathfindingService.findPath,
      PathfindingService.validateCoordinates, badBatchReq,
      PathfindingService.BatchRequest.toPathRequest, createError])
